import Mathlib

/-!
# Formal model of `src/energy_simulation.py`

A shallow embedding of the energy-reservoir simulator. Python floats are
modelled as `ℚ`, Python dicts (`previous_total_energy`, Prometheus poll
results) as association lists, and Python runtime exceptions
(`NameError`, `ZeroDivisionError`) as `Except PyError` results. Each
definition carries the line numbers of the code it embeds.
-/

/-- Python runtime errors that the modelled code can raise. -/
inductive PyError
  | nameError
  | zeroDivisionError
  deriving DecidableEq

/-- One Prometheus poll: per-pod cumulative energy counters (joules),
as built on lines 72-75 (`current_total_energy`). -/
abbrev PollResult := List (String × ℚ)

/-- The global dict `previous_total_energy` (line 26). -/
abbrev Baseline := List (String × ℚ)

/-- Python dict lookup `d.get(k)` / `k in d` on an association list. -/
def lookupEnergy : List (String × ℚ) → String → Option ℚ
  | [], _ => none
  | (k1, v) :: rest, k => if k1 = k then some v else lookupEnergy rest k

/-- Python dict assignment `d[k] = v` on an association list. -/
def setEntry : List (String × ℚ) → String → ℚ → List (String × ℚ)
  | [], k, v => [(k, v)]
  | (k1, v1) :: rest, k, v =>
      if k1 = k then (k, v) :: rest else (k1, v1) :: setEntry rest k v

/-- Lines 78-82 of `get_current_energy_utilization`: for each pod in the
poll, `delta = current - previous_total_energy.get(pod, 0.0)`, then
`previous_total_energy[pod] = current`. Returns the delta dict and the
updated baseline. -/
def processPoll : PollResult → Baseline → (List (String × ℚ)) × Baseline
  | [], prev => ([], prev)
  | (pod, v) :: rest, prev =>
      let d := v - (lookupEnergy prev pod).getD 0
      let prev1 := setEntry prev pod v
      let r := processPoll rest prev1
      ((pod, d) :: r.1, r.2)

/-- Lines 66-88, `get_current_energy_utilization`: on a successful query
(`poll = some ...`) compute per-pod deltas against the baseline and
update the baseline; on a query exception (`poll = none`, lines 86-88)
return an empty delta dict and leave the baseline unchanged. -/
def get_current_energy_utilization (poll : Option PollResult) (prev : Baseline) :
    (List (String × ℚ)) × Baseline :=
  match poll with
  | none => ([], prev)
  | some cur => processPoll cur prev

/-- Lines 90-93, `check_wind_down_instruction`:
`stored_energy_joules < 0.2 * storage_capacity_joules`. -/
def check_wind_down_instruction (stored cap : ℚ) : Bool :=
  decide (stored < (0.2 : ℚ) * cap)

/-- The JSON body of a `/ml_model_epochs` request (lines 99-104):
`none` fields model keys absent from the request. -/
structure EpochsRequest where
  epochs : Option ℚ
  pod_name : Option String
  estimated_total_epochs : Option ℚ
  deriving DecidableEq

/-- The four responses the `/ml_model_epochs` handler can return
(lines 102, 114, 118, 120, 121). -/
inductive EpochsResponse
  | invalidRequest          -- line 102, HTTP 400
  | windDown                -- lines 114 and 120, message 'Wind down instruction'
  | completeBeforeEstimate  -- line 118, 'Complete or wind down before estimated_total_epochs'
  | success                 -- line 121, message 'Success'
  deriving DecidableEq

/-- The decision signal of spec section 3. -/
inductive Decision
  | Proceed
  | WindDown
  deriving DecidableEq

/-- Spec section 6 mapping from handler responses to decisions: the
wind-down message is the `WindDown` decision, every other 200-level
response is `Proceed`; a 400 rejection carries no decision. -/
def decisionOf : EpochsResponse → Option Decision
  | .invalidRequest => none
  | .windDown => some .WindDown
  | .completeBeforeEstimate => some .Proceed
  | .success => some .Proceed

/-- Lines 95-121, the `/ml_model_epochs` handler, as a function of the
request body and the globals `previous_total_energy`,
`stored_energy_joules`, `storage_capacity_joules`. Python's
`x / 0` raises `ZeroDivisionError`, so the division on line 115 is
modelled as fallible: it errors exactly when `data['epochs'] = 0`. -/
def ml_model_epochs (req : EpochsRequest) (baseline : Baseline) (stored cap : ℚ) :
    Except PyError EpochsResponse :=
  match req.epochs, req.pod_name with
  | some epochs, some pod =>
      if check_wind_down_instruction stored cap then
        match req.estimated_total_epochs, lookupEnergy baseline pod with
        | some est, some consumed =>
            if est < epochs then .ok .windDown
            else if epochs = 0 then .error .zeroDivisionError
            else
              let energy_per_epoch := consumed / epochs
              let energy_to_complete := (est - epochs) * energy_per_epoch
              if stored - energy_to_complete ≥ (0.1 : ℚ) * cap then
                .ok .completeBeforeEstimate
              else .ok .windDown
        | _, _ => .ok .windDown
      else .ok .success
  | _, _ => .ok .invalidRequest

/-- Lines 34-48, `load_power_factors`: on a readable source
(`fileData = some l`) the global `power_factors_data` is assigned the
parsed list (the length check on lines 41-44 only logs, it keeps the
data either way); on `FileNotFoundError` or any parse error the global
is left as it was — in particular still undefined (`none`) if it was
never assigned. -/
def load_power_factors (fileData : Option (List ℚ)) (st : Option (List ℚ)) :
    Option (List ℚ) :=
  match fileData with
  | some l => some l
  | none => st

/-- Lines 50-64, `read_power_factors`. The state `st` is the global
`power_factors_data`; `st = none` models the name never having been
assigned, so that `if not power_factors_data` on line 53 raises
`NameError`. The date argument is the parsed day offset
`(start_date - 1986-01-01).days`. Returns the window and the
possibly-reloaded global. -/
def read_power_factors (fileData : Option (List ℚ)) (st : Option (List ℚ))
    (dayOffset : ℕ) : Except PyError (List ℚ × Option (List ℚ)) :=
  match st with
  | none => .error .nameError
  | some l =>
      let st1 := if l = [] then load_power_factors fileData st else st
      match st1 with
      | none => .error .nameError
      | some l1 =>
          if l1 = [] then .ok (List.replicate 24 (0.5 : ℚ), st1)
          else .ok ((l1.drop (dayOffset * 24)).take 24, st1)

/-- The mutable simulation state: the globals of lines 13-15 and 26
together with the loop-local `power_factor_index` of line 127. -/
structure SimState where
  stored : ℚ
  cap : ℚ
  windCap : ℚ
  baseline : Baseline
  pfIndex : ℕ
  deriving DecidableEq

/-- Line 136: `pf = power_factors[power_factor_index % len(power_factors)]`. -/
def tickPf (powerFactors : List ℚ) (st : SimState) : ℚ :=
  powerFactors.getD (st.pfIndex % powerFactors.length) 0

/-- Lines 136-142: the net energy of one tick,
`pf * wind_farm_capacity_joules / iterations_per_hour - sum(deltas)`,
with the deltas computed against the pre-tick baseline. -/
def tickNet (powerFactors : List ℚ) (iph : ℕ) (poll : Option PollResult)
    (st : SimState) : ℚ :=
  tickPf powerFactors st * st.windCap / (iph : ℚ) -
    ((get_current_energy_utilization poll st.baseline).1.map Prod.snd).sum

/-- Line 143: `stored_energy_joules = min(stored_energy_joules + net,
storage_capacity_joules)`. -/
def tickStoredUpdate (stored cap net : ℚ) : ℚ :=
  min (stored + net) cap

/-- One execution of the tick body, lines 134-157: poll and update the
baseline, update the stored energy, and advance the hour index when
`iteration % iterations_per_hour == 0`. -/
def simTick (powerFactors : List ℚ) (iph : ℕ) (iteration : ℕ)
    (poll : Option PollResult) (st : SimState) : SimState :=
  { st with
    stored := tickStoredUpdate st.stored st.cap (tickNet powerFactors iph poll st),
    baseline := (get_current_energy_utilization poll st.baseline).2,
    pfIndex := if iteration % iph = 0 then st.pfIndex + 1 else st.pfIndex }

/-- The flattened tick loop of lines 132-159: the `while` loop around
`for iteration in range(1, iterations_per_hour + 1)` executes the body
once per tick with `iteration = t % iph + 1` at global tick number `t`.
One poll outcome is supplied per tick; the stop flag (only consulted
between ticks) is not modelled, so the loop runs for the length of the
poll list. -/
def runSimAux (powerFactors : List ℚ) (iph : ℕ) :
    List (Option PollResult) → ℕ → SimState → SimState
  | [], _, st => st
  | p :: ps, t, st =>
      runSimAux powerFactors iph ps (t + 1) (simTick powerFactors iph (t % iph + 1) p st)

/-- Lines 126-131 of `simulate_energy_availability`: reset
`previous_total_energy` to `{}`, then call
`get_current_energy_utilization` once, discarding the returned deltas
and keeping only the seeded baseline. -/
def simInit (poll0 : Option PollResult) (st : SimState) : SimState :=
  { st with baseline := (get_current_energy_utilization poll0 []).2 }

/-- Line 126: `iterations_per_hour = int(3600 / update_interval_sec)`. -/
def iterationsPerHour (intervalSec : ℕ) : ℕ :=
  3600 / intervalSec

/-- Lines 123-159, `simulate_energy_availability`: seed the baseline
from one initial poll, then run the tick loop over the given polls
starting at `power_factor_index = 0`. -/
def simulate_energy_availability (powerFactors : List ℚ) (intervalSec : ℕ)
    (poll0 : Option PollResult) (polls : List (Option PollResult))
    (st : SimState) : SimState :=
  runSimAux powerFactors (iterationsPerHour intervalSec) polls 0
    (simInit poll0 { st with pfIndex := 0 })

/-- Lines 164-169, `is_valid_date`: the parsed date, as a day offset
from 1986-01-01 (possibly negative), must lie between 1986-01-01
(offset 0) and 2015-12-31 (offset 10956). An unparsable string takes
the `ValueError` branch and is treated as out of range. -/
def is_valid_date (dayOffset : ℤ) : Bool :=
  decide (0 ≤ dayOffset ∧ dayOffset ≤ 10956)

/-- The form fields of a `/start_simulation` request (lines 187-197),
with the start date already parsed to a day offset. -/
structure StartRequest where
  ns : String
  start_date : ℤ
  stored_energy_kwh : ℚ
  storage_capacity_kwh : ℚ
  wind_farm_production_capacity_kwh : ℚ
  deriving DecidableEq

/-- The module-level server state read and written by the routes: the
energy globals (lines 13-15), `previous_total_energy` (line 26), the
global `power_factors_data` (`none` = never assigned), whether a
simulation thread is live, and `target_namespace` (line 23). -/
structure ServerState where
  stored : ℚ
  cap : ℚ
  windCap : ℚ
  baseline : Baseline
  powerData : Option (List ℚ)
  simRunning : Bool
  targetNs : String
  deriving DecidableEq

/-- Both exits of the route return `redirect('/')` (lines 193 and 208);
rejection and success produce the same response value. -/
inductive RouteResult
  | redirectHome
  deriving DecidableEq

/-- Lines 171-208, `start_simulation_route`, as a sequential state
transformer (the `join` on line 181 is synchronous, so the stop of the
previous run is modelled as simply clearing the running flag). Order of
effects matches the code: stop the previous simulation thread
(lines 178-181), reload the power-factor data (line 184), and only then
validate the date (line 191); the energy globals are assigned
(lines 195-197) before `read_power_factors` is called (line 199), so
they keep their new values even if that call raises. -/
def start_simulation_route (fileData : Option (List ℚ)) (req : StartRequest)
    (st : ServerState) : ServerState × Except PyError RouteResult :=
  let st1 := if st.simRunning then { st with simRunning := false } else st
  let st2 := { st1 with powerData := load_power_factors fileData st1.powerData }
  if is_valid_date req.start_date then
    let st3 := { st2 with
      stored := req.stored_energy_kwh * 3600000,
      cap := req.storage_capacity_kwh * 3600000,
      windCap := req.wind_farm_production_capacity_kwh * 3600000 / 24 }
    match read_power_factors fileData st3.powerData req.start_date.toNat with
    | .error e => (st3, .error e)
    | .ok (_, pd) =>
        ({ st3 with powerData := pd, targetNs := req.ns, simRunning := true },
         .ok .redirectHome)
  else (st2, .ok .redirectHome)

/-- A zeroed initial simulation state. -/
def initSimState : SimState :=
  { stored := 0, cap := 0, windCap := 0, baseline := [], pfIndex := 0 }

/-- Concrete series for analysing the power-factor indexing: 24 zero
hours (the start day) followed by 24 one hours (the next day). -/
def c3series : List ℚ := List.replicate 24 0 ++ List.replicate 24 1

/-- The 24-value window `read_power_factors` hands the tick loop for a
start date at day offset 0 of `c3series`. -/
def c3window : List ℚ := (c3series.drop (0 * 24)).take 24

/-- A server state with a simulation running. -/
def c4state : ServerState :=
  { stored := 1, cap := 2, windCap := 3, baseline := [], powerData := some [],
    simRunning := true, targetNs := "w" }

/-- A start request whose date (day offset 12418, i.e. 2020-01-01) lies
outside the valid range of day offsets 0..10956. -/
def c4req : StartRequest :=
  { ns := "x", start_date := 12418, stored_energy_kwh := 1,
    storage_capacity_kwh := 1, wind_farm_production_capacity_kwh := 1 }

/-- A simulation state for exercising one tick. -/
def c1state : SimState :=
  { stored := 5, cap := 10, windCap := 0, baseline := [], pfIndex := 0 }

/- ## Helper lemmas -/

/-- How the division by `iterations_per_hour` advances by one exactly
when the tick body's increment condition fires. -/
theorem succDivTick (t iph : ℕ) :
    (t + 1) / iph = t / iph + (if (t + 1) % iph = 0 then 1 else 0) := by
  rw [Nat.succ_div]
  by_cases hd : iph ∣ t + 1
  · simp [hd, Nat.dvd_iff_mod_eq_zero.mp hd]
  · have hm : ¬ (t + 1) % iph = 0 := fun hc => hd (Nat.dvd_iff_mod_eq_zero.mpr hc)
    simp [hd, hm]

/-- After `t` ticks the hour index equals `t / iterations_per_hour`:
the index advances by one every `iterations_per_hour` ticks. -/
theorem pfIndexRun (window : List ℚ) (iph : ℕ) :
    ∀ (polls : List (Option PollResult)) (t : ℕ) (st : SimState),
      st.pfIndex = t / iph →
      (runSimAux window iph polls t st).pfIndex = (t + polls.length) / iph := by
  intro polls
  induction polls with
  | nil => intro t st h; simpa [runSimAux] using h
  | cons p ps ih =>
      intro t st h
      have hstep : (simTick window iph (t % iph + 1) p st).pfIndex = (t + 1) / iph := by
        simp only [simTick]
        have hmod : (t % iph + 1) % iph = (t + 1) % iph := Nat.mod_add_mod t iph 1
        rw [h, hmod, succDivTick t iph]
        by_cases hc : (t + 1) % iph = 0
        · simp [hc]
        · simp [hc]
      have hrec := ih (t + 1) _ hstep
      simp only [runSimAux]
      rw [hrec, List.length_cons]
      congr 1
      omega

/-- `setEntry` leaves the lookups of other keys unchanged. -/
theorem lookupEnergy_setEntry_ne (m : List (String × ℚ)) (k k1 : String) (v : ℚ)
    (h : k ≠ k1) : lookupEnergy (setEntry m k v) k1 = lookupEnergy m k1 := by
  induction m with
  | nil => simp [setEntry, lookupEnergy, h]
  | cons a rest ih =>
      obtain ⟨ka, va⟩ := a
      by_cases hk : ka = k
      · subst hk; simp [setEntry, lookupEnergy, h]
      · simp [setEntry, lookupEnergy, hk, ih]

/-- Assigning an absent key appends it. -/
theorem setEntry_append (m : List (String × ℚ)) (k : String) (v : ℚ)
    (h : lookupEnergy m k = none) : setEntry m k v = m ++ [(k, v)] := by
  induction m with
  | nil => simp [setEntry]
  | cons a rest ih =>
      obtain ⟨ka, va⟩ := a
      have hk : ¬ ka = k := by
        intro hc; subst hc; simp [lookupEnergy] at h
      have hrest : lookupEnergy rest k = none := by
        simpa [lookupEnergy, hk] using h
      simp [setEntry, hk, ih hrest]

/-- A poll of pods none of which have a baseline entry yields, for each
pod, the delta `current - 0.0`, and appends all the current values to
the baseline. -/
theorem processPoll_seed :
    ∀ (cur : PollResult) (prev : Baseline),
      (∀ pv ∈ cur, lookupEnergy prev pv.1 = none) →
      (cur.map Prod.fst).Nodup →
      processPoll cur prev = (cur, prev ++ cur) := by
  intro cur
  induction cur with
  | nil => intro prev h hn; simp [processPoll]
  | cons a rest ih =>
      intro prev h hn
      obtain ⟨pod, v⟩ := a
      have hhead : lookupEnergy prev pod = none := h (pod, v) (by simp)
      have hn2 : (pod :: rest.map Prod.fst).Nodup := by simpa using hn
      obtain ⟨hpod, htail⟩ := List.nodup_cons.mp hn2
      have hrest : ∀ pv ∈ rest, lookupEnergy (setEntry prev pod v) pv.1 = none := by
        intro pv hm
        rw [lookupEnergy_setEntry_ne prev pod pv.1 v
          (fun hc => hpod (by rw [hc]; exact List.mem_map_of_mem Prod.fst hm))]
        exact h pv (by simp [hm])
      have hihb : processPoll rest (prev ++ [(pod, v)]) = (rest, prev ++ [(pod, v)] ++ rest) := by
        apply ih _ _ htail
        intro pv hm
        have hset := hrest pv hm
        rwa [setEntry_append prev pod v hhead] at hset
      simp only [processPoll, hhead, Option.getD_none, sub_zero,
        setEntry_append prev pod v hhead, hihb]
      simp

/- ## Claim C1 -/

/-- Claim C1, counterexample: the stored-energy update of line 143 is
`min(stored + net, capacity)` and clamps only from above. A tick whose
consumption (5 J) exceeds stored energy plus generation (0 J) drives
the stored energy to -5 J, below the claimed lower bound 0. -/
theorem C1_counterexample :
    (simTick [1] 240 1 (some [("p", 5)])
      { stored := 0, cap := 10, windCap := 0, baseline := [("p", 0)], pfIndex := 0 }).stored
      < 0 := by
  simp [simTick, tickStoredUpdate, tickNet, tickPf, get_current_energy_utilization,
    processPoll, lookupEnergy, setEntry, min_def]
  norm_num

/-- Claim C1 (amended): after a tick the stored energy never exceeds the
capacity, and it stays at least 0 only under the extra assumption that
the tick's consumption does not exceed the stored energy plus the
generated energy — the code enforces no lower clamp. -/
theorem C1_amended (window : List ℚ) (iph iter : ℕ) (poll : Option PollResult)
    (st : SimState) (hcap : 0 ≤ st.cap)
    (hnet : 0 ≤ st.stored + tickNet window iph poll st) :
    0 ≤ (simTick window iph iter poll st).stored ∧
    (simTick window iph iter poll st).stored ≤ st.cap := by
  constructor
  · simp only [simTick, tickStoredUpdate]
    exact le_min hnet hcap
  · simp only [simTick, tickStoredUpdate]
    exact min_le_right _ _

/-- Witness for `C1_amended` at a concrete tick. -/
theorem C1_amended_witness :
    (0 : ℚ) ≤ c1state.cap ∧ 0 ≤ c1state.stored + tickNet [1] 240 none c1state ∧
    (0 ≤ (simTick [1] 240 1 none c1state).stored ∧
     (simTick [1] 240 1 none c1state).stored ≤ c1state.cap) := by
  have h1 : (0 : ℚ) ≤ c1state.cap := by norm_num [c1state]
  have h2 : (0 : ℚ) ≤ c1state.stored + tickNet [1] 240 none c1state := by
    norm_num [c1state, tickNet, tickPf, get_current_energy_utilization]
  exact ⟨h1, h2, C1_amended [1] 240 1 none c1state h1 h2⟩

/- ## Claim C2 -/

/-- Claim C2, failing evaluation: with the reservoir below 20%
(10 J of 100 J), `epochs = 0`, an `estimated_total_epochs` of 10 and a
recorded consumption of 100 J for pod `"p"`, the handler divides by
zero on line 115 and raises `ZeroDivisionError` instead of returning
the wind-down response the claim promises. -/
theorem C2_bug_eval :
    ml_model_epochs { epochs := some 0, pod_name := some "p", estimated_total_epochs := some 10 }
      [("p", 100)] 10 100 = .error .zeroDivisionError := by
  have h1 : check_wind_down_instruction 10 100 = true := by
    simp [check_wind_down_instruction]
    norm_num
  simp [ml_model_epochs, h1, lookupEnergy]

/- ## Claim C3 -/

/-- Claim C3, counterexample: `start_simulation_route` passes the tick
loop only the 24-value window of the start date, so the power factor
used once the hour index reaches 24 is `window[24 % 24] = window[0]`
(here 0, the start day's value), not the full series' value at the next
hour offset `(0·24 + 24) % len(series)` (here 1). The per-tick power
factor therefore does not come from the full series at an
ever-advancing offset modulo the series length. -/
theorem C3_counterexample :
    read_power_factors (some c3series) (some c3series) 0 = .ok (c3window, some c3series) ∧
    tickPf c3window (runSimAux c3window 240 (List.replicate 5760 none) 0 initSimState) ≠
      c3series.getD ((0 * 24 + 24) % c3series.length) 0 := by
  constructor
  · rfl
  · have hidx : (runSimAux c3window 240 (List.replicate 5760 (none : Option PollResult)) 0
        initSimState).pfIndex = 24 := by
      have h := pfIndexRun c3window 240 (List.replicate 5760 none) 0 initSimState
        (by simp [initSimState])
      have hlen : (List.replicate 5760 (none : Option PollResult)).length = 5760 :=
        List.length_replicate 5760 none
      rw [hlen] at h
      norm_num at h
      exact h
    simp only [tickPf]
    rw [hidx]
    decide

/-- Claim C3 (amended): the hour offset does advance by one every
`iterations_per_hour` ticks for the whole run, but it indexes the list
the loop was given — the 24-value window of the start date — wrapping
modulo that window's length, so the start date's daily profile repeats;
the full series is never consulted past the window. -/
theorem C3_amended (window : List ℚ) (iph : ℕ) (polls : List (Option PollResult))
    (st0 : SimState) (h0 : st0.pfIndex = 0) :
    (runSimAux window iph polls 0 st0).pfIndex = polls.length / iph ∧
    tickPf window (runSimAux window iph polls 0 st0) =
      window.getD ((polls.length / iph) % window.length) 0 := by
  have h1 : (runSimAux window iph polls 0 st0).pfIndex = polls.length / iph := by
    have h := pfIndexRun window iph polls 0 st0 (by simpa using h0)
    simpa using h
  exact ⟨h1, by simp only [tickPf, h1]⟩

/-- Witness for `C3_amended`: 5 ticks at 2 ticks per hour advance the
hour index to 2, and the power factor used next is `window[2 % 2]`. -/
theorem C3_amended_witness :
    initSimState.pfIndex = 0 ∧
    ((runSimAux [1, 2] 2 (List.replicate 5 none) 0 initSimState).pfIndex =
       (List.replicate 5 (none : Option PollResult)).length / 2 ∧
     tickPf [1, 2] (runSimAux [1, 2] 2 (List.replicate 5 none) 0 initSimState) =
       ([1, 2] : List ℚ).getD
         (((List.replicate 5 (none : Option PollResult)).length / 2) % ([1, 2] : List ℚ).length)
         0) :=
  ⟨rfl, C3_amended [1, 2] 2 (List.replicate 5 none) initSimState rfl⟩

/- ## Claim C4 -/

/-- Claim C4, counterexample: a start request with an out-of-range date
(day offset 12418, year 2020) is rejected, yet the route has already
stopped and joined the running simulation thread (lines 178-181) before
validating the date (line 191), so the running simulation is not left
as it was. -/
theorem C4_counterexample :
    (start_simulation_route none c4req c4state).1.simRunning ≠ c4state.simRunning := by
  decide

/-- Claim C4 (amended): a start request with an invalid date is rejected
and leaves the reservoir values, the baseline and the target namespace
untouched, but it stops any running simulation and reloads the
power-factor data before the date check, so those two parts of the
state do change. -/
theorem C4_amended (fileData : Option (List ℚ)) (req : StartRequest) (st : ServerState)
    (h : is_valid_date req.start_date = false) :
    (start_simulation_route fileData req st).1.stored = st.stored ∧
    (start_simulation_route fileData req st).1.cap = st.cap ∧
    (start_simulation_route fileData req st).1.windCap = st.windCap ∧
    (start_simulation_route fileData req st).1.baseline = st.baseline ∧
    (start_simulation_route fileData req st).1.targetNs = st.targetNs ∧
    (start_simulation_route fileData req st).1.simRunning = false ∧
    (start_simulation_route fileData req st).1.powerData =
      load_power_factors fileData st.powerData ∧
    (start_simulation_route fileData req st).2 = .ok .redirectHome := by
  cases hb : st.simRunning <;> simp [start_simulation_route, h, hb]

/-- Witness for `C4_amended` at the concrete rejected request. -/
theorem C4_amended_witness :
    is_valid_date c4req.start_date = false ∧
    ((start_simulation_route none c4req c4state).1.stored = c4state.stored ∧
     (start_simulation_route none c4req c4state).1.cap = c4state.cap ∧
     (start_simulation_route none c4req c4state).1.windCap = c4state.windCap ∧
     (start_simulation_route none c4req c4state).1.baseline = c4state.baseline ∧
     (start_simulation_route none c4req c4state).1.targetNs = c4state.targetNs ∧
     (start_simulation_route none c4req c4state).1.simRunning = false ∧
     (start_simulation_route none c4req c4state).1.powerData =
       load_power_factors none c4state.powerData ∧
     (start_simulation_route none c4req c4state).2 = .ok .redirectHome) :=
  ⟨by decide, C4_amended none c4req c4state (by decide)⟩

/- ## Claim C5 -/

/-- Claim C5, counterexample: on the first poll after a run starts the
baseline is empty, so the computed delta for pod `"p"` with cumulative
counter 100 J is `100 - 0.0 = 100`, the raw counter value — not zero,
and not independent of the absolute counter value. -/
theorem C5_counterexample :
    (get_current_energy_utilization (some [("p", 100)]) []).1 = [("p", (100 : ℚ))] ∧
    (100 : ℚ) ≠ 0 := by
  constructor
  · simp [get_current_energy_utilization, processPoll, lookupEnergy]
  · norm_num

/-- Claim C5 (amended): the first poll's computed delta for each
workload equals its raw cumulative counter (the previous baseline
defaults to `0.0`, not to the current value), but the loop discards
those deltas — the seeding call on line 130 only installs the polled
values as the baseline and leaves the stored energy untouched, so the
first-poll deltas never reach the energy balance. -/
theorem C5_amended (poll : PollResult) (st : SimState)
    (hnd : (poll.map Prod.fst).Nodup) :
    (get_current_energy_utilization (some poll) []).1 = poll ∧
    (simInit (some poll) st).baseline = poll ∧
    (simInit (some poll) st).stored = st.stored := by
  have h := processPoll_seed poll [] (by intro pv _; simp [lookupEnergy]) hnd
  refine ⟨?_, ?_, rfl⟩
  · simp [get_current_energy_utilization, h]
  · simp [simInit, get_current_energy_utilization, h]

/-- Witness for `C5_amended` on a two-pod poll. -/
theorem C5_amended_witness :
    ((([("a", (5 : ℚ)), ("b", 7)] : PollResult).map Prod.fst).Nodup) ∧
    ((get_current_energy_utilization (some [("a", 5), ("b", 7)]) []).1 = [("a", 5), ("b", 7)] ∧
     (simInit (some [("a", 5), ("b", 7)]) initSimState).baseline = [("a", 5), ("b", 7)] ∧
     (simInit (some [("a", 5), ("b", 7)]) initSimState).stored = initSimState.stored) :=
  ⟨by decide, C5_amended [("a", 5), ("b", 7)] initSimState (by decide)⟩

/- ## Claim C6 -/

/-- Claim C6: below 20% of capacity, with a recorded consumption for the
pod, `epochsCompleted > 0` and `estimatedTotalEpochs ≥ epochsCompleted`,
the handler computes `energy_per_epoch = consumed / epochs` and
`energy_to_complete = (est - epochs) * energy_per_epoch`, and the
decision is `Proceed` exactly when
`stored - energy_to_complete ≥ 0.1 * capacity`, otherwise `WindDown`. -/
theorem C6_lookahead (stored cap e est consumed : ℚ) (pod : String) (b : Baseline)
    (hlow : stored < (0.2 : ℚ) * cap) (hpos : 0 < e) (hle : e ≤ est)
    (hcons : lookupEnergy b pod = some consumed) :
    (ml_model_epochs
        { epochs := some e, pod_name := some pod, estimated_total_epochs := some est }
        b stored cap).map decisionOf =
      .ok (some (if stored - (est - e) * (consumed / e) ≥ (0.1 : ℚ) * cap
                 then Decision.Proceed else Decision.WindDown)) := by
  have hwd : check_wind_down_instruction stored cap = true := by
    simp [check_wind_down_instruction, hlow]
  have hne : ¬ est < e := not_lt.mpr hle
  have hz : ¬ e = 0 := ne_of_gt hpos
  simp only [ml_model_epochs, hwd, hcons, if_true]
  split_ifs with h1 h2 h3 <;> first
    | exact absurd h1 hne
    | exact absurd h2 hz
    | simp [decisionOf, Except.map]

/-- Witness for `C6_lookahead`: the spec's own scenario, with
`stored = 0.15 × cap`, 8 of 10 epochs done and 16 J consumed, where the
lookahead leaves the 10% floor intact and the decision is `Proceed`. -/
theorem C6_lookahead_witness :
    (15 : ℚ) < (0.2 : ℚ) * 100 ∧ (0 : ℚ) < 8 ∧ (8 : ℚ) ≤ 10 ∧
    lookupEnergy [("p", 16)] "p" = some 16 ∧
    (ml_model_epochs
        { epochs := some 8, pod_name := some "p", estimated_total_epochs := some 10 }
        [("p", 16)] 15 100).map decisionOf = .ok (some Decision.Proceed) := by
  have h := C6_lookahead 15 100 8 10 16 "p" [("p", 16)] (by norm_num) (by norm_num)
    (by norm_num) rfl
  have hc : (15 : ℚ) - (10 - 8) * (16 / 8) ≥ (0.1 : ℚ) * 100 := by norm_num
  rw [if_pos hc] at h
  exact ⟨by norm_num, by norm_num, by norm_num, rfl, h⟩

/- ## Claim C7 -/

/-- Claim C7: for a loaded series of the expected 262,968 hourly samples
and any date in the valid range (day offset up to 10956),
`read_power_factors` returns exactly the 24 consecutive series values
starting at hour offset `days × 24`. -/
theorem C7_window (fd : Option (List ℚ)) (data : List ℚ) (off : ℕ)
    (hlen : data.length = 262968) (hoff : off ≤ 10956) :
    ∃ w, read_power_factors fd (some data) off = .ok (w, some data) ∧
      w.length = 24 ∧ ∀ i, i < 24 → w.getD i 0 = data.getD (off * 24 + i) 0 := by
  have hne : data ≠ [] := by
    intro hc; rw [hc] at hlen; simp at hlen
  refine ⟨(data.drop (off * 24)).take 24, ?_, ?_, ?_⟩
  · simp [read_power_factors, hne]
  · rw [List.length_take, List.length_drop, hlen]
    omega
  · intro i hi
    rw [List.getD_eq_getElem?_getD, List.getD_eq_getElem?_getD, List.getElem?_take,
      if_pos hi, List.getElem?_drop]

/-- Witness for `C7_window` on a constant series of the expected length,
at the last valid day offset. -/
theorem C7_window_witness :
    (List.replicate 262968 (1 : ℚ)).length = 262968 ∧ (10956 : ℕ) ≤ 10956 ∧
    (∃ w, read_power_factors none (some (List.replicate 262968 (1 : ℚ))) 10956 =
        .ok (w, some (List.replicate 262968 (1 : ℚ))) ∧
      w.length = 24 ∧
      ∀ i, i < 24 → w.getD i 0 = (List.replicate 262968 (1 : ℚ)).getD (10956 * 24 + i) 0) :=
  ⟨List.length_replicate 262968 1, by decide,
   C7_window none (List.replicate 262968 1) 10956 (List.length_replicate 262968 1) (by decide)⟩

/- ## Claim C8 -/

/-- Claim C8, evaluation at the failing and succeeding inputs: when the
power-factor source is missing and the series was never assigned, the
global `power_factors_data` is undefined and `if not power_factors_data`
on line 53 raises `NameError` — the fallback is never reached; only
when the series was loaded but is empty does the function return 24
copies of 0.5. -/
theorem C8_bug_eval :
    read_power_factors none none 0 = .error .nameError ∧
    read_power_factors none (some []) 0 = .ok (List.replicate 24 (0.5 : ℚ), some []) :=
  ⟨rfl, rfl⟩

/- ## Claim C9 -/

/-- Claim C9: when a pod's cumulative counter drops from `b` to `v < b`,
the computed delta is the negative difference `v - b`, it enters the
summed consumption unchanged (the baseline is merely set to `v`, the
delta is not clamped at zero), and the stored-energy update with that
consumption yields at least — and, when the result stays below
capacity, strictly more — stored energy than the same tick with the
delta clamped to zero. -/
theorem C9_negative_delta (pod : String) (b v s g cap : ℚ) (hvb : v < b) :
    ((get_current_energy_utilization (some [(pod, v)]) [(pod, b)]).1.map Prod.snd).sum
      = v - b ∧
    v - b < 0 ∧
    (get_current_energy_utilization (some [(pod, v)]) [(pod, b)]).2 = [(pod, v)] ∧
    tickStoredUpdate s cap (g - (v - b)) ≥ tickStoredUpdate s cap (g - 0) ∧
    (s + (g - (v - b)) < cap →
      tickStoredUpdate s cap (g - (v - b)) > tickStoredUpdate s cap (g - 0)) := by
  refine ⟨?_, by linarith, ?_, ?_, ?_⟩
  · simp [get_current_energy_utilization, processPoll, lookupEnergy]
  · simp [get_current_energy_utilization, processPoll, lookupEnergy, setEntry]
  · simp only [tickStoredUpdate]
    exact min_le_min (by linarith) le_rfl
  · intro hlt
    simp only [tickStoredUpdate]
    calc min (s + (g - 0)) cap ≤ s + (g - 0) := min_le_left _ _
      _ < s + (g - (v - b)) := by linarith
      _ = min (s + (g - (v - b))) cap := (min_eq_left (le_of_lt hlt)).symm

/-- Witness for `C9_negative_delta`: counter drop from 10 J to 3 J. -/
theorem C9_negative_delta_witness :
    (3 : ℚ) < 10 ∧
    (((get_current_energy_utilization (some [("p", 3)]) [("p", 10)]).1.map Prod.snd).sum
        = (3 : ℚ) - 10 ∧
     (3 : ℚ) - 10 < 0 ∧
     (get_current_energy_utilization (some [("p", 3)]) [("p", 10)]).2 = [("p", (3 : ℚ))] ∧
     tickStoredUpdate 0 100 (0 - ((3 : ℚ) - 10)) ≥ tickStoredUpdate 0 100 (0 - 0) ∧
     ((0 : ℚ) + (0 - ((3 : ℚ) - 10)) < 100 →
       tickStoredUpdate 0 100 (0 - ((3 : ℚ) - 10)) > tickStoredUpdate 0 100 (0 - 0))) :=
  ⟨by norm_num, C9_negative_delta "p" 10 3 0 0 100 (by norm_num)⟩

/- ## Claim C10 -/

/-- Claim C10: before any run has started the globals are
`stored_energy_joules = 0`, `storage_capacity_joules = 0` and an empty
baseline; for every well-formed progress report the wind-down check
`0 < 0.2 × 0` is false, so the handler returns the generic success
response and the decision is `Proceed`. -/
theorem C10_initial_proceed (req : EpochsRequest) (e : ℚ) (pod : String)
    (he : req.epochs = some e) (hp : req.pod_name = some pod) :
    ml_model_epochs req [] 0 0 = .ok .success ∧
    (ml_model_epochs req [] 0 0).map decisionOf = .ok (some Decision.Proceed) := by
  have hnl : ¬ ((0 : ℚ) < (0.2 : ℚ) * 0) := by norm_num
  have hwd : check_wind_down_instruction 0 0 = false := by
    simp [check_wind_down_instruction, hnl]
  obtain ⟨eo, po, esto⟩ := req
  simp only [EpochsRequest.mk.injEq] at he hp
  subst he
  subst hp
  constructor <;> simp [ml_model_epochs, hwd, Except.map, decisionOf]

/-- Witness for `C10_initial_proceed` on a concrete report. -/
theorem C10_initial_proceed_witness :
    ({ epochs := some 1, pod_name := some "p", estimated_total_epochs := none }
        : EpochsRequest).epochs = some 1 ∧
    ({ epochs := some 1, pod_name := some "p", estimated_total_epochs := none }
        : EpochsRequest).pod_name = some "p" ∧
    (ml_model_epochs
        { epochs := some 1, pod_name := some "p", estimated_total_epochs := none }
        [] 0 0 = .ok .success ∧
     (ml_model_epochs
        { epochs := some 1, pod_name := some "p", estimated_total_epochs := none }
        [] 0 0).map decisionOf = .ok (some Decision.Proceed)) :=
  ⟨rfl, rfl, C10_initial_proceed _ 1 "p" rfl rfl⟩
